import Mathlib

/-!
Verification of the jeff read-only decode/view layer (Rust crate under
src/impl/rs) against its natural-language specification.

The development shallowly embeds the reader code: capnp-generated readers are
represented by plain "Raw" data holding the fields the generated accessors
expose, machine integers are `Nat` (with explicit bounds or `% 2 ^ w` where the
width matters), and fallible accessors return `Except`.  The external capnp
substrate (byte-level segment/pointer decoding) is out of scope for the crate
itself; where a claim depends on it, the substrate call is represented by its
typed result and the modelling is noted in the doc comment.
-/

namespace Jeff

/-- Error produced by the external capnp substrate (the `capnp::Error` type).
Its content is irrelevant to the crate logic; we keep a message string. -/
structure CapnpError where
  msg : String
deriving DecidableEq, Repr

/-- Result of a UTF-8 validation failure (`core::str::Utf8Error`).  Only its
identity matters to the reader code, which forwards it unchanged. -/
structure Utf8Error where
  valid_up_to : Nat
deriving DecidableEq, Repr

/-- Result of the substrate's `to_str` on one text entry: the decoded string,
or the `Utf8Error` the validation produced.  The byte-level UTF-8 check itself
is performed by the external substrate. -/
def TextEntry : Type := Except Utf8Error String

/-- Precision of floating point numbers (types.rs, `FloatPrecision`). -/
inductive FloatPrecision where
  | Float32
  | Float64
deriving DecidableEq, Repr

/-- Bitwidth of the floating point number (types.rs, `FloatPrecision::bits`). -/
def FloatPrecision.bits : FloatPrecision → Nat
  | .Float32 => 32
  | .Float64 => 64

/-- Value type (types.rs, `Type`; named `Ty` because `Type` is reserved in
Lean).  Bit widths are `u8` values in the source, embedded as `Nat`. -/
inductive Ty where
  | Qubit
  | QubitRegister
  | Int (bits : Nat)
  | IntArray (bits : Nat)
  | Float (precision : FloatPrecision)
  | FloatArray (precision : FloatPrecision)
deriving DecidableEq, Repr

/-- Errors that can occur when accessing a jeff program (reader.rs,
`ReadError`).  The `context` is the static diagnostic label, `idx` the
requested index (already widened to `u32` by the caller) and `count` the
table length (`usize`). -/
inductive ReadError where
  | StringOutOfBounds (context : String) (idx : Nat) (count : Nat)
  | StringNotUtf8 (context : String) (idx : Nat) (source : Utf8Error)
  | ValueOutOfBounds (idx : Nat) (count : Nat)
deriving DecidableEq, Repr

/-- A string table stored at the module level (string_table.rs,
`StringTable`).  Each entry stands for one text element of the backing capnp
text list, represented by the result of the substrate's `to_str` on it; a
structurally malformed entry pointer panics in the source (`expect`) and is
outside the model. -/
structure StringTable where
  strings : List TextEntry

/-- Number of strings in the table (string_table.rs, `StringTable::len`). -/
def StringTable.len (t : StringTable) : Nat := t.strings.length

/-- Lookup in the string table (string_table.rs, `StringTable::get`).  The
source takes `idx : u16`, widens it to `u32`, fails with `StringOutOfBounds`
when `try_get` reports the index out of bounds, and with `StringNotUtf8` when
the entry bytes do not decode as UTF-8. -/
def StringTable.get (t : StringTable) (idx : Nat) (access_context : String) :
    Except ReadError String :=
  match t.strings[idx]? with
  | none => .error (.StringOutOfBounds access_context idx t.len)
  | some (.error e) => .error (.StringNotUtf8 access_context idx e)
  | some (.ok s) => .ok s

/-- Metadata entry as encoded (a `meta` struct): a `u16` index into the module
string table and an opaque any-pointer value.  The value is represented by the
result of the substrate's attempt to read it as text (metadata.rs,
`Metadata::value_str`); other interpretations are not provided by the crate. -/
structure RawMeta where
  name : Nat
  value_text : Option TextEntry

/-- Value descriptor as encoded (a `value` struct): its type and metadata list
(value.rs, `Value::read_capnp` reads both from the reader). -/
structure RawValue where
  type : Ty
  metadata : List RawMeta

/-- Hyperedge type and associated metadata (value.rs, `Value`).  `id` is
`Some` of the value-table index the value was fetched by, or `None` for the
input/output of a function declaration. -/
structure Value where
  id : Option Nat
  value_type : Ty
  metadata : List RawMeta
  strings : StringTable

/-- Construction of a value view from a capnp reader (value.rs,
`Value::read_capnp`): the type and metadata are taken from the entry, the id
and string table are supplied by the caller. -/
def Value.read_capnp (id : Option Nat) (value : RawValue) (strings : StringTable) :
    Value :=
  ⟨id, value.type, value.metadata, strings⟩

/-- Type of this value (value.rs, `Value::ty`). -/
def Value.ty (v : Value) : Ty := v.value_type

/-- Table of values / typed hyperedges contained in a function (value.rs,
`ValueTable`). -/
structure ValueTable where
  values : List RawValue
  strings : StringTable

/-- Number of entries in the value table (value.rs, `ValueTable::len`). -/
def ValueTable.len (t : ValueTable) : Nat := t.values.length

/-- True when the table is empty (value.rs, `ValueTable::is_empty`). -/
def ValueTable.is_empty (t : ValueTable) : Bool := t.values.length == 0

/-- Lookup in the value table (value.rs, `ValueTable::get`): `try_get` bounds
check, then a `Value` view carrying `Some idx` as its id. -/
def ValueTable.get (t : ValueTable) (idx : Nat) : Except ReadError Value :=
  match t.values[idx]? with
  | none => .error (.ValueOutOfBounds idx t.len)
  | some v => .ok (Value.read_capnp (some idx) v t.strings)

/-- A Pauli operator (qubit/pauli.rs, `Pauli`). -/
inductive Pauli where
  | X
  | Y
  | Z
  | I
deriving DecidableEq, Repr

/-- String representation of the Pauli operator (qubit/pauli.rs,
`Pauli::name`). -/
def Pauli.name : Pauli → String
  | .X => "X"
  | .Y => "Y"
  | .Z => "Z"
  | .I => "I"

/-- A Pauli string, a list reader over Pauli operators (qubit/pauli.rs,
`PauliString`). -/
structure PauliString where
  paulis : List Pauli
deriving DecidableEq, Repr

/-- Number of Pauli operators in the string (qubit/pauli.rs,
`PauliString::len`). -/
def PauliString.len (p : PauliString) : Nat := p.paulis.length

/-- True when the string is empty (qubit/pauli.rs, `PauliString::is_empty`). -/
def PauliString.is_empty (p : PauliString) : Bool := p.len == 0

/-- The n-th Pauli operator (qubit/pauli.rs, `PauliString::get`); the source
panics out of range (capnp list `get`), modelled as `Option`. -/
def PauliString.get (p : PauliString) (n : Nat) : Option Pauli := p.paulis[n]?

/-- Number of qubits the Pauli-product rotation acts on (qubit/pauli.rs,
`PauliString::num_qubits`): the length of the string. -/
def PauliString.num_qubits (p : PauliString) : Nat := p.len

/-- Number of floating point parameters of the Pauli-product rotation
(qubit/pauli.rs, `PauliString::num_params`): always 1, the rotation angle. -/
def PauliString.num_params (_ : PauliString) : Nat := 1

/-- Well-known quantum gates (qubit/well_known.rs, `WellKnownGate`). -/
inductive WellKnownGate where
  | GPhase
  | I
  | X
  | Y
  | Z
  | S
  | T
  | R1
  | Rx
  | Ry
  | Rz
  | H
  | U
  | Swap
deriving DecidableEq, Repr

/-- Number of qubits that the gate acts on (qubit/well_known.rs,
`WellKnownGate::num_qubits`). -/
def WellKnownGate.num_qubits : WellKnownGate → Nat
  | .GPhase => 0
  | .I | .X | .Y | .Z | .S | .T | .R1 | .Rx | .Ry | .Rz | .H | .U => 1
  | .Swap => 2

/-- Number of floating point parameters that the gate takes as inputs
(qubit/well_known.rs, `WellKnownGate::num_params`). -/
def WellKnownGate.num_params : WellKnownGate → Nat
  | .I | .X | .Y | .Z | .S | .T | .H | .Swap => 0
  | .GPhase | .R1 | .Rx | .Ry | .Rz => 1
  | .U => 3

/-- Encoded gate-type union of a `qubitGate` struct: a well-known gate tag, a
custom gate (string-table name index, `u8` qubit and parameter counts), or a
Pauli-product rotation (enum list of Pauli operators). -/
inductive RawGateWhich where
  | wellKnown (g : WellKnownGate)
  | custom (name : Nat) (num_qubits : Nat) (num_params : Nat)
  | ppr (pauli_string : List Pauli)

/-- Encoded `qubitGate` struct as its accessors expose it (qubit.rs,
`GateOp::try_read_capnp` reads these four fields). -/
structure RawGate where
  which : RawGateWhich
  control_qubits : Nat
  adjoint : Bool
  power : Nat

/-- The type of gate operation (qubit.rs, `GateOpType`). -/
inductive GateOpType where
  | Custom (name : String) (num_qubits : Nat) (num_params : Nat)
  | WellKnown (gate : WellKnownGate)
  | PauliProdRotation (pauli_string : PauliString)

/-- Quantum gate operation (qubit.rs, `GateOp`). -/
structure GateOp where
  gate_type : GateOpType
  control_qubits : Nat
  adjoint : Bool
  power : Nat

/-- Decoding of a gate operation (qubit.rs, `GateOp::try_read_capnp`): the
custom-gate name resolves through the string table and can fail with
`StringOutOfBounds` or `StringNotUtf8`. -/
def GateOp.try_read_capnp (gate : RawGate) (strings : StringTable) :
    Except ReadError GateOp :=
  match gate.which with
  | .wellKnown w =>
      .ok ⟨.WellKnown w, gate.control_qubits, gate.adjoint, gate.power⟩
  | .custom nameIdx nq np =>
      match strings.get nameIdx "gate name" with
      | .error e => .error e
      | .ok name =>
          .ok ⟨.Custom name nq np, gate.control_qubits, gate.adjoint, gate.power⟩
  | .ppr ps =>
      .ok ⟨.PauliProdRotation ⟨ps⟩, gate.control_qubits, gate.adjoint, gate.power⟩

/-- Modelled from the spec: the methods `GateOp::num_qubits` /
`GateOp::num_params` described in section 4.8 of the specification are not
present in the sources under src (only the `GateOp` struct and the per-family
base counts are).  Base qubit count of a gate type per the spec table: Custom
uses its `num_qubits` field, WellKnown the fixed per-gate table,
PauliProdRotation the length of the Pauli string. -/
def GateOpType.base_num_qubits : GateOpType → Nat
  | .Custom _ nq _ => nq
  | .WellKnown g => g.num_qubits
  | .PauliProdRotation ps => ps.num_qubits

/-- Modelled from the spec: base parameter count of a gate type (Custom uses
its `num_params` field, WellKnown the fixed table, PauliProdRotation 1). -/
def GateOpType.base_num_params : GateOpType → Nat
  | .Custom _ _ np => np
  | .WellKnown g => g.num_params
  | .PauliProdRotation ps => ps.num_params

/-- Modelled from the spec: total qubit count of a gate operation, the
gate-type base qubit count plus the `control_qubits` field. -/
def GateOp.num_qubits (g : GateOp) : Nat :=
  g.gate_type.base_num_qubits + g.control_qubits

/-- Modelled from the spec: parameter count of a gate operation; controls add
no parameters. -/
def GateOp.num_params (g : GateOp) : Nat :=
  g.gate_type.base_num_params

/-- An operation over qubit registers (qubit.rs, `QubitRegisterOp`); a flat
enumeration, decoded 1:1 from the encoded discriminant. -/
inductive QubitRegisterOp where
  | Alloc
  | Free
  | FreeZero
  | ExtractIndex
  | InsertIndex
  | ExtractSlice
  | InsertSlice
  | Length
  | Split
  | Join
  | Create
deriving DecidableEq, Repr

/-- An operation over integers (int.rs, `IntOp`); a flat enumeration decoded
1:1, with the constant constructors carrying their literal (machine integers
embedded as `Nat`, booleans as `Bool`). -/
inductive IntOp where
  | Const1 (val : Bool)
  | Const8 (val : Nat)
  | Const16 (val : Nat)
  | Const32 (val : Nat)
  | Const64 (val : Nat)
  | Add
  | Sub
  | Mul
  | DivS
  | DivU
  | Pow
  | And
  | Or
  | Xor
  | Not
  | MinS
  | MinU
  | MaxS
  | MaxU
  | Eq
  | LtS
  | LteS
  | LtU
  | LteU
  | Abs
  | RemS
  | RemU
  | Shl
  | Shr
deriving DecidableEq, Repr

/-- An operation over integer arrays (int.rs, `IntArrayOp`); the constant
array constructors wrap fixed-length primitive lists (`ConstArray`). -/
inductive IntArrayOp where
  | ConstArray1 (vals : List Bool)
  | ConstArray8 (vals : List Nat)
  | ConstArray16 (vals : List Nat)
  | ConstArray32 (vals : List Nat)
  | ConstArray64 (vals : List Nat)
  | Zero (bits : Nat)
  | GetIndex
  | SetIndex
  | Length
  | Create
deriving DecidableEq, Repr

/-- An operation over floating point numbers (float.rs, `FloatOp`); constant
payloads are embedded as raw bit patterns (`Nat`), since no claim interprets
them numerically. -/
inductive FloatOp where
  | Const32 (bits : Nat)
  | Const64 (bits : Nat)
  | Add
  | Sub
  | Mul
  | Pow
  | Eq
  | Lt
  | Lte
  | Sqrt
  | Abs
  | Ceil
  | Floor
  | IsNan
  | IsInf
  | Exp
  | Log
  | Sin
  | Cos
  | Tan
  | Asin
  | Acos
  | Atan
  | Atan2
  | Sinh
  | Cosh
  | Tanh
  | Asinh
  | Acosh
  | Atanh
  | Max
  | Min
deriving DecidableEq, Repr

/-- An operation over floating point arrays (float.rs, `FloatArrayOp`). -/
inductive FloatArrayOp where
  | Const32 (bits : List Nat)
  | Const64 (bits : List Nat)
  | Zero (precision : FloatPrecision)
  | GetIndex
  | SetIndex
  | Length
  | Create
deriving DecidableEq, Repr

/-- Encoded `qubitOp` union (qubit.rs, `QubitOp::read_capnp` matches these
variants). -/
inductive RawQubitOp where
  | alloc
  | free
  | freeZero
  | measure
  | measureNd
  | reset
  | gate (g : RawGate)

mutual

/-- Encoded `region` struct as its accessors expose it: boundary source and
target value ids, the operation list, and metadata. -/
inductive RawRegion where
  | mk (sources : List Nat) (targets : List Nat) (operations : List RawOp)
      (metadata : List RawMeta)

/-- Encoded `op` struct: the instruction union, input and output value ids,
and metadata. -/
inductive RawOp where
  | mk (instruction : RawInstr) (inputs : List Nat) (outputs : List Nat)
      (metadata : List RawMeta)

/-- Encoded instruction union of an `op` struct (matched by
`OpType::read_capnp` in optype.rs).  The flat numeric/register enumerations
are decoded 1:1 from their discriminants, so they are carried directly; the
`func` variant carries the `funcCall` field, a 16-bit unsigned integer in the
schema, embedded as `Nat`. -/
inductive RawInstr where
  | qubit (op : RawQubitOp)
  | qureg (op : QubitRegisterOp)
  | int (op : IntOp)
  | intArray (op : IntArrayOp)
  | float (op : FloatOp)
  | floatArray (op : FloatArrayOp)
  | scf (op : RawScfOp)
  | func (func_call : Nat)

/-- Encoded structured-control-flow union of an `scfOp` struct.  Modelled from
the spec for the `switch` default: the generated accessor code is not under
src, and the spec describes the default branch as `optional Region`, absent
when not encoded. -/
inductive RawScfOp where
  | switch (branches : List RawRegion) (defaultRegion : Option RawRegion)
  | forLoop (region : RawRegion)
  | whileLoop (condition : RawRegion) (body : RawRegion)
  | doWhile (body : RawRegion) (condition : RawRegion)

end

/-- Boundary sources of an encoded region. -/
def RawRegion.sources : RawRegion → List Nat
  | .mk s _ _ _ => s

/-- Boundary targets of an encoded region. -/
def RawRegion.targets : RawRegion → List Nat
  | .mk _ t _ _ => t

/-- Operation list of an encoded region. -/
def RawRegion.operations : RawRegion → List RawOp
  | .mk _ _ ops _ => ops

/-- Metadata list of an encoded region. -/
def RawRegion.metadata : RawRegion → List RawMeta
  | .mk _ _ _ m => m

/-- Instruction union of an encoded operation. -/
def RawOp.instruction : RawOp → RawInstr
  | .mk i _ _ _ => i

/-- Input value ids of an encoded operation. -/
def RawOp.inputs : RawOp → List Nat
  | .mk _ i _ _ => i

/-- Output value ids of an encoded operation. -/
def RawOp.outputs : RawOp → List Nat
  | .mk _ _ o _ => o

/-- Metadata list of an encoded operation. -/
def RawOp.metadata : RawOp → List RawMeta
  | .mk _ _ _ m => m

/-- Direction of a port (lib.rs, `Direction`). -/
inductive Direction where
  | Incoming
  | Outgoing
deriving DecidableEq, Repr

/-- The opposite direction (lib.rs, `Direction::reverse`). -/
def Direction.reverse : Direction → Direction
  | .Incoming => .Outgoing
  | .Outgoing => .Incoming

/-- Dataflow region view (region.rs, `Region`): the raw region reader plus
the module string table and the owning function value table. -/
structure Region where
  region : RawRegion
  strings : StringTable
  values : ValueTable

/-- Construction of a region view (region.rs, `Region::read_capnp`). -/
def Region.read_capnp (region : RawRegion) (strings : StringTable)
    (values : ValueTable) : Region :=
  ⟨region, strings, values⟩

/-- Boundary values of a region (region.rs, `Region::boundary`): each encoded
boundary id is resolved through the bound value table; `Incoming` maps to
sources and `Outgoing` to targets. -/
def Region.boundary (r : Region) (direction : Direction) :
    List (Except ReadError Value) :=
  (match direction with
    | .Incoming => r.region.sources
    | .Outgoing => r.region.targets).map r.values.get

/-- Source boundary values of a region (region.rs, `Region::sources`). -/
def Region.sources (r : Region) : List (Except ReadError Value) :=
  r.boundary .Incoming

/-- Target boundary values of a region (region.rs, `Region::targets`). -/
def Region.targets (r : Region) : List (Except ReadError Value) :=
  r.boundary .Outgoing

/-- Number of boundary values in a direction (region.rs,
`Region::boundary_count`). -/
def Region.boundary_count (r : Region) (direction : Direction) : Nat :=
  (match direction with
    | .Incoming => r.region.sources
    | .Outgoing => r.region.targets).length

/-- Number of source values (region.rs, `Region::source_count`). -/
def Region.source_count (r : Region) : Nat := r.boundary_count .Incoming

/-- Number of target values (region.rs, `Region::target_count`). -/
def Region.target_count (r : Region) : Nat := r.boundary_count .Outgoing

/-- Boundary value at an index (region.rs, `Region::boundary_value`): `none`
when the index exceeds the boundary length, otherwise the value-table lookup
of the encoded id (which can fail with `ValueOutOfBounds`). -/
def Region.boundary_value (r : Region) (direction : Direction) (idx : Nat) :
    Option (Except ReadError Value) :=
  ((match direction with
    | .Incoming => r.region.sources
    | .Outgoing => r.region.targets)[idx]?).map r.values.get

/-- Source value at an index (region.rs, `Region::source`). -/
def Region.source (r : Region) (idx : Nat) : Option (Except ReadError Value) :=
  r.boundary_value .Incoming idx

/-- Target value at an index (region.rs, `Region::target`). -/
def Region.target (r : Region) (idx : Nat) : Option (Except ReadError Value) :=
  r.boundary_value .Outgoing idx

/-- Number of operations in the region (region.rs,
`Region::operation_count`). -/
def Region.operation_count (r : Region) : Nat := r.region.operations.length

/-- Operation view in a dataflow graph (op.rs, `Operation`). -/
structure Operation where
  op : RawOp
  strings : StringTable
  values : ValueTable

/-- Construction of an operation view (op.rs, `Operation::read_capnp`). -/
def Operation.read_capnp (op : RawOp) (strings : StringTable)
    (values : ValueTable) : Operation :=
  ⟨op, strings, values⟩

/-- Operations of a region, in encoded order (region.rs,
`Region::operations`). -/
def Region.operations (r : Region) : List Operation :=
  r.region.operations.map (fun op => Operation.read_capnp op r.strings r.values)

/-- The n-th operation of a region (region.rs, `Region::operation`); the
source panics out of range (capnp list `get`), modelled as `Option`. -/
def Region.operation (r : Region) (n : Nat) : Option Operation :=
  (r.region.operations[n]?).map
    (fun op => Operation.read_capnp op r.strings r.values)

/-- Boundary values of an operation (op.rs, `Operation::boundary`), with the
same direction convention as regions: `Incoming` maps to inputs, `Outgoing`
to outputs. -/
def Operation.boundary (o : Operation) (direction : Direction) :
    List (Except ReadError Value) :=
  (match direction with
    | .Incoming => o.op.inputs
    | .Outgoing => o.op.outputs).map o.values.get

/-- Input values of an operation (op.rs, `Operation::inputs`). -/
def Operation.inputs (o : Operation) : List (Except ReadError Value) :=
  o.boundary .Incoming

/-- Output values of an operation (op.rs, `Operation::outputs`). -/
def Operation.outputs (o : Operation) : List (Except ReadError Value) :=
  o.boundary .Outgoing

/-- Input types of an operation (op.rs, `Operation::input_types`): each
resolved input mapped to its type, errors propagated per element. -/
def Operation.input_types (o : Operation) : List (Except ReadError Ty) :=
  o.inputs.map (fun res => res.map Value.ty)

/-- Output types of an operation (op.rs, `Operation::output_types`). -/
def Operation.output_types (o : Operation) : List (Except ReadError Ty) :=
  o.outputs.map (fun res => res.map Value.ty)

/-- A function call operation (control_flow.rs, `FuncOp`); `func_idx` is a
`u16` in the source struct. -/
structure FuncOp where
  func_idx : Nat

/-- A switch statement view (control_flow.rs, `SwitchOp`): the raw branch
list reader, the already-decoded optional default region, and the two bound
tables. -/
structure SwitchOp where
  branches : List RawRegion
  defaultRegion : Option Region
  strings : StringTable
  values : ValueTable

/-- Construction of a switch view (control_flow.rs, `SwitchOp::read_capnp`):
the branch list is kept raw and the default region, when one was encoded, is
decoded eagerly.  The optionality of the default comes from the encoded
message (spec section 3: `default: optional Region`); the generated accessor
is represented by the `Option RawRegion` field of the raw union. -/
def SwitchOp.read_capnp (branches : List RawRegion)
    (defaultRegion : Option RawRegion) (strings : StringTable)
    (values : ValueTable) : SwitchOp :=
  ⟨branches, defaultRegion.map (fun r => Region.read_capnp r strings values),
    strings, values⟩

/-- Branches of the switch statement, in order (control_flow.rs,
`SwitchOp::branches`). -/
def SwitchOp.branches_list (s : SwitchOp) : List Region :=
  s.branches.map (fun r => Region.read_capnp r s.strings s.values)

/-- Number of branches (control_flow.rs, `SwitchOp::branch_count`). -/
def SwitchOp.branch_count (s : SwitchOp) : Nat := s.branches.length

/-- The n-th branch (control_flow.rs, `SwitchOp::branch`); the source panics
when n is at least `branch_count` (capnp list `get`), modelled as `Option`
with `none` standing for the panic. -/
def SwitchOp.branch (s : SwitchOp) (n : Nat) : Option Region :=
  (s.branches[n]?).map (fun r => Region.read_capnp r s.strings s.values)

/-- The n-th branch, or `none` when n is at least `branch_count`
(control_flow.rs, `SwitchOp::try_branch`, via the list reader try_get). -/
def SwitchOp.try_branch (s : SwitchOp) (n : Nat) : Option Region :=
  (s.branches[n]?).map (fun r => Region.read_capnp r s.strings s.values)

/-- The default branch, or `none` when there is no default branch
(control_flow.rs, `SwitchOp::default_branch`). -/
def SwitchOp.default_branch (s : SwitchOp) : Option Region := s.defaultRegion

/-- A structured control-flow operation (control_flow.rs, `ControlFlowOp`). -/
inductive ControlFlowOp where
  | Switch (op : SwitchOp)
  | For (region : Region)
  | While (condition : Region) (body : Region)
  | DoWhile (body : Region) (condition : Region)

/-- Decoding of a control-flow operation (control_flow.rs,
`ControlFlowOp::read_capnp`): nested regions are bound to the same string and
value tables. -/
def ControlFlowOp.read_capnp (control_flow : RawScfOp) (strings : StringTable)
    (values : ValueTable) : ControlFlowOp :=
  match control_flow with
  | .switch branches defaultRegion =>
      .Switch (SwitchOp.read_capnp branches defaultRegion strings values)
  | .forLoop region => .For (Region.read_capnp region strings values)
  | .whileLoop condition body =>
      .While (Region.read_capnp condition strings values)
        (Region.read_capnp body strings values)
  | .doWhile body condition =>
      .DoWhile (Region.read_capnp body strings values)
        (Region.read_capnp condition strings values)

/-- An operation over qubits (qubit.rs, `QubitOp`). -/
inductive QubitOp where
  | Alloc
  | Free
  | FreeZero
  | Measure
  | MeasureNd
  | Reset
  | Gate (g : GateOp)

/-- Decoding of a qubit operation (qubit.rs, `QubitOp::read_capnp`); the
source unwraps the gate decode and panics on a gate-name lookup failure, so
the failure is modelled as `none`. -/
def QubitOp.read_capnp (qubit_op : RawQubitOp) (strings : StringTable) :
    Option QubitOp :=
  match qubit_op with
  | .alloc => some .Alloc
  | .free => some .Free
  | .freeZero => some .FreeZero
  | .measure => some .Measure
  | .measureNd => some .MeasureNd
  | .reset => some .Reset
  | .gate g =>
      match GateOp.try_read_capnp g strings with
      | .ok gate => some (.Gate gate)
      | .error _ => none

/-- The type of an operation (optype.rs, `OpType`). -/
inductive OpType where
  | QubitOp (op : QubitOp)
  | QubitRegisterOp (op : QubitRegisterOp)
  | IntOp (op : IntOp)
  | IntArrayOp (op : IntArrayOp)
  | FloatOp (op : FloatOp)
  | FloatArrayOp (op : FloatArrayOp)
  | ControlFlowOp (op : ControlFlowOp)
  | FuncOp (op : FuncOp)

/-- Decoding of an operation type (optype.rs, `OpType::read_capnp`),
dispatching on the instruction union.  The flat numeric/register enumerations
decode 1:1 and are carried through; `func` reads the `funcCall` field through
its `u16` getter (hence the explicit `% 2 ^ 16`); a qubit-gate decode failure
panics in the source, modelled as `none`. -/
def OpType.read_capnp (instr : RawInstr) (strings : StringTable)
    (values : ValueTable) : Option OpType :=
  match instr with
  | .qubit q => (QubitOp.read_capnp q strings).map OpType.QubitOp
  | .qureg q => some (.QubitRegisterOp q)
  | .int i => some (.IntOp i)
  | .intArray i => some (.IntArrayOp i)
  | .float f => some (.FloatOp f)
  | .floatArray f => some (.FloatArrayOp f)
  | .scf s => some (.ControlFlowOp (ControlFlowOp.read_capnp s strings values))
  | .func fc => some (.FuncOp ⟨fc % 2 ^ 16⟩)

/-- The decoded type of an operation (op.rs, `Operation::op_type`). -/
def Operation.op_type (o : Operation) : Option OpType :=
  OpType.read_capnp o.op.instruction o.strings o.values

/-- Encoded union of a `function` struct: a definition (body region plus
owned value list) or a declaration (input and output value lists). -/
inductive RawFunctionWhich where
  | definition (body : RawRegion) (values : List RawValue)
  | declaration (inputs : List RawValue) (outputs : List RawValue)

/-- Encoded `function` struct: the `u16` string-table index of its name, the
definition/declaration union, and metadata. -/
structure RawFunction where
  name : Nat
  which : RawFunctionWhich
  metadata : List RawMeta

/-- Function definition view (function.rs, `FunctionDefinition`).  The source
keeps the raw function reader, the raw body-region reader, the owned value
table and the module string table; the raw body reader is named
`body_reader` here because `body` is the view-producing method. -/
structure FunctionDefinition where
  function : RawFunction
  body_reader : RawRegion
  values : ValueTable
  strings : StringTable

/-- Function declaration view (function.rs, `FunctionDeclaration`). -/
structure FunctionDeclaration where
  function : RawFunction
  inputs : List RawValue
  outputs : List RawValue
  strings : StringTable

/-- Function in a jeff module (function.rs, `Function`). -/
inductive Function where
  | Definition (d : FunctionDefinition)
  | Declaration (d : FunctionDeclaration)

/-- Construction of a function view (function.rs, `Function::read_capnp`):
the union decides the variant; a definition binds its value list to the
module string table as its owned `ValueTable`. -/
def Function.read_capnp (function : RawFunction) (strings : StringTable) :
    Function :=
  match function.which with
  | .definition body values =>
      .Definition ⟨function, body, ⟨values, strings⟩, strings⟩
  | .declaration inputs outputs =>
      .Declaration ⟨function, inputs, outputs, strings⟩

/-- Name of a function definition (function.rs, `FunctionDefinition::name`);
the source resolves the name through the string table and panics on failure,
modelled as `Option`. -/
def FunctionDefinition.name (d : FunctionDefinition) : Option String :=
  (d.strings.get d.function.name "function name").toOption

/-- The dataflow region associated with a function definition (function.rs,
`FunctionDefinition::body`), pre-bound to the owned value table. -/
def FunctionDefinition.body (d : FunctionDefinition) : Region :=
  Region.read_capnp d.body_reader d.strings d.values

/-- Input types of a function definition (function.rs,
`FunctionDefinition::input_types`): delegates to the body region's source
boundary. -/
def FunctionDefinition.input_types (d : FunctionDefinition) :
    List (Except ReadError Value) :=
  d.body.sources

/-- Output types of a function definition (function.rs,
`FunctionDefinition::output_types`): delegates to the body region's target
boundary. -/
def FunctionDefinition.output_types (d : FunctionDefinition) :
    List (Except ReadError Value) :=
  d.body.targets

/-- Name of a function declaration (function.rs,
`FunctionDeclaration::name`). -/
def FunctionDeclaration.name (d : FunctionDeclaration) : Option String :=
  (d.strings.get d.function.name "function name").toOption

/-- Input types of a function declaration (function.rs,
`FunctionDeclaration::input_types`): read directly from the stored value
list, never failing on an index. -/
def FunctionDeclaration.input_types (d : FunctionDeclaration) :
    List (Except ReadError Value) :=
  d.inputs.map (fun v => .ok (Value.read_capnp none v d.strings))

/-- Output types of a function declaration (function.rs,
`FunctionDeclaration::output_types`). -/
def FunctionDeclaration.output_types (d : FunctionDeclaration) :
    List (Except ReadError Value) :=
  d.outputs.map (fun v => .ok (Value.read_capnp none v d.strings))

/-- Input types of a function (function.rs, `Function::input_types`),
dispatching on the variant. -/
def Function.input_types : Function → List (Except ReadError Value)
  | .Definition d => d.input_types
  | .Declaration d => d.input_types

/-- Output types of a function (function.rs, `Function::output_types`). -/
def Function.output_types : Function → List (Except ReadError Value)
  | .Definition d => d.output_types
  | .Declaration d => d.output_types

/-- Encoded `module` root struct as its accessors expose it.  The two tool
strings go through fallible pointer and UTF-8 steps, represented by the
nested `Except` results of the substrate accessors; `entrypoint` is the raw
integer field. -/
structure RawModule where
  version : Nat
  tool : Except CapnpError (Except Utf8Error String)
  tool_version : Except CapnpError (Except Utf8Error String)
  functions : List RawFunction
  entrypoint : Nat
  strings : List TextEntry
  metadata : List RawMeta

/-- Top-level module view (module.rs, `Module`). -/
structure Module where
  module : RawModule

/-- Construction of a module view (module.rs, `Module::read_capnp`). -/
def Module.read_capnp (module : RawModule) : Module := ⟨module⟩

/-- Version of the jeff protocol used in this module (module.rs,
`Module::version`). -/
def Module.version (m : Module) : Nat := m.module.version

/-- The module string table (module.rs, `Module::strings`). -/
def Module.strings (m : Module) : StringTable := ⟨m.module.strings⟩

/-- Functions defined in this module, in order (module.rs,
`Module::functions`). -/
def Module.functions (m : Module) : List Function :=
  m.module.functions.map (fun f => Function.read_capnp f m.strings)

/-- Number of functions defined in this module (module.rs,
`Module::function_count`). -/
def Module.function_count (m : Module) : Nat := m.module.functions.length

/-- The n-th function (module.rs, `Module::function`); the source panics out
of range (capnp list `get`), modelled as `Option`. -/
def Module.function (m : Module) (n : Nat) : Option Function :=
  (m.module.functions[n]?).map (fun f => Function.read_capnp f m.strings)

/-- The n-th function, or `none` when out of range (module.rs,
`Module::try_function`). -/
def Module.try_function (m : Module) (n : Nat) : Option Function :=
  (m.module.functions[n]?).map (fun f => Function.read_capnp f m.strings)

/-- The entrypoint function id (module.rs, `Module::entrypoint_id`). -/
def Module.entrypoint_id (m : Module) : Nat := m.module.entrypoint

/-- The entrypoint function (module.rs, `Module::entrypoint`); the source
unwraps and panics when the id is out of range, modelled as `Option`. -/
def Module.entrypoint (m : Module) : Option Function :=
  m.functions[m.entrypoint_id]?

/-- Tool name used to generate this program (module.rs, `Module::tool`): any
pointer-level or UTF-8 failure is swallowed and the empty string returned. -/
def Module.tool (m : Module) : String :=
  match m.module.tool with
  | .ok (.ok s) => s
  | _ => ""

/-- Tool version used to generate this program (module.rs,
`Module::tool_version`), with the same total fallback to the empty string. -/
def Module.tool_version (m : Module) : String :=
  match m.module.tool_version with
  | .ok (.ok s) => s
  | _ => ""

/-- Latest version of the jeff schema (lib.rs, `SCHEMA_VERSION`). -/
def SCHEMA_VERSION : Nat := 0

/-- Errors that can occur when processing a jeff file (lib.rs,
`JeffError`). -/
inductive JeffError where
  | InvalidFile (e : CapnpError)
  | InvalidVersion (v : Nat)
  | ReadErr (e : ReadError)
deriving DecidableEq, Repr

/-- Cow-like storage of a decoded jeff program (jeff.rs, `JeffCow`): either a
typed reader borrowing the caller's slice or one owning a private buffer.  In
both cases the payload is the decoded root module. -/
inductive JeffCow where
  | Borrowed (module : RawModule)
  | Owned (module : RawModule)

/-- The internal jeff module of either storage variant (jeff.rs,
`JeffCow::module`). -/
def JeffCow.module : JeffCow → RawModule
  | .Borrowed m => m
  | .Owned m => m

/-- Copy-on-write representation of jeff programs (jeff.rs, `Jeff`). -/
structure Jeff where
  module : JeffCow

/-- Current version of the jeff format (jeff.rs, `Jeff::VERSION`). -/
def Jeff.VERSION : Nat := SCHEMA_VERSION

/-- The module view of a loaded program (jeff.rs, the `ReadJeff` impl for
`Jeff`); named `module_view` because the `module` field holds the storage. -/
def Jeff.module_view (j : Jeff) : Module := Module.read_capnp j.module.module

/-- Version gate (jeff.rs, `Jeff::check_version`): ok when the decoded
module's version equals `Jeff::VERSION`, otherwise `InvalidVersion` carrying
the found version. -/
def Jeff.check_version (j : Jeff) : Except JeffError Unit :=
  let version := j.module_view.version
  if version = Jeff.VERSION then .ok ()
  else .error (.InvalidVersion version)

/-- Borrowing load (jeff.rs, `Jeff::read_slice`).  The capnp substrate call
(`read_message_from_flat_slice` followed by the root-type check) is external
to the crate and is represented by its typed result `decoded`: a capnp error
maps to `InvalidFile`, a decoded root module is wrapped as `Borrowed` and
passed through the version gate. -/
def Jeff.read_slice (decoded : Except CapnpError RawModule) :
    Except JeffError Jeff :=
  match decoded with
  | .error e => .error (.InvalidFile e)
  | .ok m =>
      let slf : Jeff := ⟨.Borrowed m⟩
      match slf.check_version with
      | .error e => .error e
      | .ok () => .ok slf

/-- Owning load (jeff.rs, `Jeff::read`).  The substrate call (`read_message`
on the fully drained stream, followed by the root-type check) is represented
by its typed result, as for `read_slice`; the module is wrapped as `Owned`. -/
def Jeff.read (decoded : Except CapnpError RawModule) :
    Except JeffError Jeff :=
  match decoded with
  | .error e => .error (.InvalidFile e)
  | .ok m =>
      let slf : Jeff := ⟨.Owned m⟩
      match slf.check_version with
      | .error e => .error e
      | .ok () => .ok slf

/-! Theorems about the embedded reader, one per specification claim. -/

/-- C7: for every well-known gate, `WellKnownGate::num_qubits` returns 0 for
GPhase; 1 for I, X, Y, Z, S, T, R1, Rx, Ry, Rz, H and U; 2 for Swap; and
`WellKnownGate::num_params` returns 0 for I, X, Y, Z, S, T, H and Swap; 1 for
GPhase, R1, Rx, Ry and Rz; 3 for U. -/
theorem c7_well_known_arity :
    WellKnownGate.num_qubits .GPhase = 0 ∧
    WellKnownGate.num_qubits .I = 1 ∧
    WellKnownGate.num_qubits .X = 1 ∧
    WellKnownGate.num_qubits .Y = 1 ∧
    WellKnownGate.num_qubits .Z = 1 ∧
    WellKnownGate.num_qubits .S = 1 ∧
    WellKnownGate.num_qubits .T = 1 ∧
    WellKnownGate.num_qubits .R1 = 1 ∧
    WellKnownGate.num_qubits .Rx = 1 ∧
    WellKnownGate.num_qubits .Ry = 1 ∧
    WellKnownGate.num_qubits .Rz = 1 ∧
    WellKnownGate.num_qubits .H = 1 ∧
    WellKnownGate.num_qubits .U = 1 ∧
    WellKnownGate.num_qubits .Swap = 2 ∧
    WellKnownGate.num_params .I = 0 ∧
    WellKnownGate.num_params .X = 0 ∧
    WellKnownGate.num_params .Y = 0 ∧
    WellKnownGate.num_params .Z = 0 ∧
    WellKnownGate.num_params .S = 0 ∧
    WellKnownGate.num_params .T = 0 ∧
    WellKnownGate.num_params .H = 0 ∧
    WellKnownGate.num_params .Swap = 0 ∧
    WellKnownGate.num_params .GPhase = 1 ∧
    WellKnownGate.num_params .R1 = 1 ∧
    WellKnownGate.num_params .Rx = 1 ∧
    WellKnownGate.num_params .Ry = 1 ∧
    WellKnownGate.num_params .Rz = 1 ∧
    WellKnownGate.num_params .U = 3 := by
  decide

/-- C6: for every GateOp, `num_qubits` equals the gate-type base qubit count
plus the `control_qubits` field; the base count is the Custom gate's
`num_qubits` field, the per-gate table value for a WellKnown gate, and the
Pauli string length for a PauliProdRotation.  A GateOp wrapping Swap with one
control qubit has three qubits.  (`GateOp::num_qubits` itself is modelled
from the spec; the base tables are the source's.) -/
theorem c6_gate_num_qubits :
    (∀ g : GateOp, g.num_qubits = g.gate_type.base_num_qubits + g.control_qubits) ∧
    (∀ (name : String) (nq np : Nat),
      GateOpType.base_num_qubits (.Custom name nq np) = nq) ∧
    (∀ w : WellKnownGate,
      GateOpType.base_num_qubits (.WellKnown w) = w.num_qubits) ∧
    (∀ ps : PauliString,
      GateOpType.base_num_qubits (.PauliProdRotation ps) = ps.paulis.length) ∧
    GateOp.num_qubits ⟨.WellKnown .Swap, 1, false, 1⟩ = 3 :=
  ⟨fun _ => rfl, fun _ _ _ => rfl, fun _ => rfl, fun _ => rfl, rfl⟩

/-- C4: for every function Definition, `input_types()` is exactly
`body().sources()` and `output_types()` is exactly `body().targets()`, which
in turn are the encoded boundary ids resolved element-wise (errors included,
in order) through the owned value table. -/
theorem c4_definition_io_types (d : FunctionDefinition) :
    Function.input_types (.Definition d) = d.body.sources ∧
    Function.output_types (.Definition d) = d.body.targets ∧
    d.body.sources = d.body_reader.sources.map d.values.get ∧
    d.body.targets = d.body_reader.targets.map d.values.get :=
  ⟨rfl, rfl, rfl, rfl⟩

/-- C10: `Module::tool` and `Module::tool_version` are total (they return a
`String`, never an error): a pointer-level failure of the substrate accessor
or a UTF-8 failure of `to_str` yields the empty string, and a present valid
field is returned as stored (an absent field reads as the empty string at
the substrate level, covered by the final conjunct at the empty string). -/
theorem c10_tool_total (r : RawModule) (e : CapnpError) (u : Utf8Error) :
    Module.tool ⟨{ r with tool := Except.error e }⟩ = "" ∧
    Module.tool ⟨{ r with tool := Except.ok (Except.error u) }⟩ = "" ∧
    Module.tool_version ⟨{ r with tool_version := Except.error e }⟩ = "" ∧
    Module.tool_version ⟨{ r with tool_version := Except.ok (Except.error u) }⟩ = "" ∧
    (∀ s, Module.tool ⟨{ r with tool := Except.ok (Except.ok s) }⟩ = s) ∧
    (∀ s, Module.tool_version ⟨{ r with tool_version := Except.ok (Except.ok s) }⟩ = s) :=
  ⟨rfl, rfl, rfl, rfl, fun _ => rfl, fun _ => rfl⟩

/-- Closed form of the borrowing load on a decoded root: success wrapping the
module as `Borrowed` when its version passes the gate, `InvalidVersion`
otherwise. -/
theorem read_slice_on_ok (m : RawModule) :
    Jeff.read_slice (.ok m) =
      if m.version = SCHEMA_VERSION then .ok ⟨.Borrowed m⟩
      else .error (.InvalidVersion m.version) := by
  by_cases hv : m.version = SCHEMA_VERSION <;>
    simp [Jeff.read_slice, Jeff.check_version, Jeff.module_view,
      Module.read_capnp, Module.version, JeffCow.module, Jeff.VERSION, hv]

/-- Closed form of the owning load on a decoded root, wrapping the module as
`Owned`. -/
theorem read_on_ok (m : RawModule) :
    Jeff.read (.ok m) =
      if m.version = SCHEMA_VERSION then .ok ⟨.Owned m⟩
      else .error (.InvalidVersion m.version) := by
  by_cases hv : m.version = SCHEMA_VERSION <;>
    simp [Jeff.read, Jeff.check_version, Jeff.module_view,
      Module.read_capnp, Module.version, JeffCow.module, Jeff.VERSION, hv]

/-- C1: for every outcome of the substrate decode, a successful load (via the
borrowing `read_slice` or the owning `read`) yields a module whose version is
`SCHEMA_VERSION`; and whenever the root decodes to a module with version
different from `SCHEMA_VERSION`, both loads fail with `InvalidVersion`
carrying that found version. -/
theorem c1_load_version_gate (d : Except CapnpError RawModule) :
    (∀ j, Jeff.read_slice d = .ok j → j.module_view.version = SCHEMA_VERSION) ∧
    (∀ j, Jeff.read d = .ok j → j.module_view.version = SCHEMA_VERSION) ∧
    (∀ m, d = .ok m → m.version ≠ SCHEMA_VERSION →
      Jeff.read_slice d = .error (.InvalidVersion m.version) ∧
      Jeff.read d = .error (.InvalidVersion m.version)) := by
  refine ⟨?_, ?_, ?_⟩
  · intro j h
    cases d with
    | error e => simp [Jeff.read_slice] at h
    | ok m =>
        rw [read_slice_on_ok] at h
        by_cases hv : m.version = SCHEMA_VERSION
        · simp only [hv, if_pos rfl] at h
          cases h
          simpa [Jeff.module_view, Module.read_capnp, Module.version,
            JeffCow.module] using hv
        · simp [hv] at h
  · intro j h
    cases d with
    | error e => simp [Jeff.read] at h
    | ok m =>
        rw [read_on_ok] at h
        by_cases hv : m.version = SCHEMA_VERSION
        · simp only [hv, if_pos rfl] at h
          cases h
          simpa [Jeff.module_view, Module.read_capnp, Module.version,
            JeffCow.module] using hv
        · simp [hv] at h
  · intro m hd hv
    subst hd
    rw [read_slice_on_ok, read_on_ok]
    simp [hv]

/-- Witness for C1: a root module with version 1 is rejected by both load
paths with `InvalidVersion 1`. -/
theorem c1_load_version_gate_witness :
    Jeff.read_slice
        (.ok ⟨1, .ok (.ok ""), .ok (.ok ""), [], 0, [], []⟩) =
      .error (.InvalidVersion 1) ∧
    Jeff.read
        (.ok ⟨1, .ok (.ok ""), .ok (.ok ""), [], 0, [], []⟩) =
      .error (.InvalidVersion 1) :=
  (c1_load_version_gate
      (.ok ⟨1, .ok (.ok ""), .ok (.ok ""), [], 0, [], []⟩)).2.2
    ⟨1, .ok (.ok ""), .ok (.ok ""), [], 0, [], []⟩ rfl (by decide)

/-- C8: decoding the same substrate outcome through the borrowing path and the
owning path yields the same `Module` view (and the same typed error on
failure).  Every accessor of Module, Function, Region, Operation and Value in
this development is a pure function of the `Module` value, so equal module
views return equal results from every accessor. -/
theorem c8_borrow_own_equiv (d : Except CapnpError RawModule) :
    (Jeff.read_slice d).map Jeff.module_view = (Jeff.read d).map Jeff.module_view := by
  cases d with
  | error e => rfl
  | ok m =>
      rw [read_slice_on_ok, read_on_ok]
      by_cases hv : m.version = SCHEMA_VERSION <;>
        simp [hv, Except.map, Jeff.module_view, Module.read_capnp, JeffCow.module]

/-- C2: for a string table of length n, `get(i, context)` returns the stored
string when i is in bounds and the entry decodes as UTF-8; it returns
`StringOutOfBounds{context, idx: i, count: n}` exactly when i is at least n;
and it returns `StringNotUtf8{context, idx: i, source}` exactly when i is in
bounds but the entry does not decode as UTF-8. -/
theorem c2_string_table_get (t : StringTable) (idx : Nat) (context : String) :
    (t.get idx context = .error (.StringOutOfBounds context idx t.len) ↔
      t.len ≤ idx) ∧
    (∀ s, t.strings[idx]? = some (.ok s) → t.get idx context = .ok s) ∧
    ((∃ u, t.get idx context = .error (.StringNotUtf8 context idx u)) ↔
      (idx < t.len ∧ ∃ u, t.strings[idx]? = some (.error u))) := by
  have hlen : t.len = t.strings.length := rfl
  refine ⟨?_, ?_, ?_⟩
  · cases h : t.strings[idx]? with
    | none =>
        have hle : t.len ≤ idx := hlen ▸ List.getElem?_eq_none_iff.mp h
        simp [StringTable.get, h, hle]
    | some e =>
        have hidx : idx < t.len := hlen ▸ (List.getElem?_eq_some.mp h).1
        cases e with
        | ok s => simp [StringTable.get, h, Nat.not_le.mpr hidx]
        | error u => simp [StringTable.get, h, Nat.not_le.mpr hidx]
  · intro s h
    simp [StringTable.get, h]
  · cases h : t.strings[idx]? with
    | none =>
        have : t.len ≤ idx := hlen ▸ List.getElem?_eq_none_iff.mp h
        simp [StringTable.get, h, Nat.not_lt.mpr this]
    | some e =>
        have hidx : idx < t.len := hlen ▸ (List.getElem?_eq_some.mp h).1
        cases e with
        | ok s => simp [StringTable.get, h, hidx]
        | error u => simp [StringTable.get, h, hidx]

/-- Witness for C2: in a two-entry table whose second entry is not valid
UTF-8, index 0 yields the stored string, index 1 the UTF-8 error, and index 2
the out-of-bounds error with count 2. -/
theorem c2_string_table_get_witness :
    StringTable.get ⟨[Except.ok "a", Except.error ⟨0⟩]⟩ 0 "ctx" = .ok "a" ∧
    StringTable.get ⟨[Except.ok "a", Except.error ⟨0⟩]⟩ 2 "ctx" =
      .error (.StringOutOfBounds "ctx" 2 2) ∧
    (∃ u, StringTable.get ⟨[Except.ok "a", Except.error ⟨0⟩]⟩ 1 "ctx" =
      .error (.StringNotUtf8 "ctx" 1 u)) :=
  ⟨(c2_string_table_get ⟨[Except.ok "a", Except.error ⟨0⟩]⟩ 0 "ctx").2.1 "a" rfl,
    (c2_string_table_get ⟨[Except.ok "a", Except.error ⟨0⟩]⟩ 2 "ctx").1.mpr
      (by decide),
    (c2_string_table_get ⟨[Except.ok "a", Except.error ⟨0⟩]⟩ 1 "ctx").2.2.mpr
      ⟨by decide, ⟨0⟩, rfl⟩⟩

/-- C3: for a value table of length n, `get(id)` succeeds exactly when the id
is in bounds, fails with `ValueOutOfBounds{idx: id, count: n}` exactly when
it is not, and every successfully returned value carries `Some id` as its own
stored id. -/
theorem c3_value_table_get (t : ValueTable) (idx : Nat) :
    ((∃ v, t.get idx = .ok v) ↔ idx < t.len) ∧
    (t.get idx = .error (.ValueOutOfBounds idx t.len) ↔ t.len ≤ idx) ∧
    (∀ v, t.get idx = .ok v → v.id = some idx) := by
  have hlen : t.len = t.values.length := rfl
  refine ⟨?_, ?_, ?_⟩
  · cases h : t.values[idx]? with
    | none =>
        have : t.len ≤ idx := hlen ▸ List.getElem?_eq_none_iff.mp h
        simp [ValueTable.get, h, Nat.not_lt.mpr this]
    | some v =>
        have hidx : idx < t.len := hlen ▸ (List.getElem?_eq_some.mp h).1
        simp [ValueTable.get, h, hidx]
  · cases h : t.values[idx]? with
    | none =>
        have hle : t.len ≤ idx := hlen ▸ List.getElem?_eq_none_iff.mp h
        simp [ValueTable.get, h, hle]
    | some v =>
        have hidx : idx < t.len := hlen ▸ (List.getElem?_eq_some.mp h).1
        simp [ValueTable.get, h, Nat.not_le.mpr hidx]
  · intro v h
    cases hv : t.values[idx]? with
    | none => simp [ValueTable.get, hv] at h
    | some w =>
        simp only [ValueTable.get, hv, Except.ok.injEq] at h
        subst h
        rfl

/-- Witness for C3: a one-entry table returns the qubit-typed value with
stored id `Some 0` at index 0 and `ValueOutOfBounds{idx: 1, count: 1}` at
index 1. -/
theorem c3_value_table_get_witness :
    (∃ v, ValueTable.get ⟨[⟨Ty.Qubit, []⟩], ⟨[]⟩⟩ 0 = .ok v) ∧
    ValueTable.get ⟨[⟨Ty.Qubit, []⟩], ⟨[]⟩⟩ 1 =
      .error (.ValueOutOfBounds 1 1) ∧
    Value.id ⟨some 0, Ty.Qubit, [], ⟨[]⟩⟩ = some 0 :=
  ⟨(c3_value_table_get ⟨[⟨Ty.Qubit, []⟩], ⟨[]⟩⟩ 0).1.mpr (by decide),
    (c3_value_table_get ⟨[⟨Ty.Qubit, []⟩], ⟨[]⟩⟩ 1).2.1.mpr (by decide),
    (c3_value_table_get ⟨[⟨Ty.Qubit, []⟩], ⟨[]⟩⟩ 0).2.2
      ⟨some 0, Ty.Qubit, [], ⟨[]⟩⟩ rfl⟩

/-- C5: for a decoded switch with k branches and no default region encoded,
`branch(k-1)` succeeds for k at least 1 (no panic), `try_branch(k)` returns
none, and `default_branch()` returns none. -/
theorem c5_switch_no_default (branches : List RawRegion) (strings : StringTable)
    (values : ValueTable) (h : 1 ≤ branches.length) :
    ((SwitchOp.read_capnp branches none strings values).branch
      ((SwitchOp.read_capnp branches none strings values).branch_count - 1)).isSome
        = true ∧
    (SwitchOp.read_capnp branches none strings values).try_branch
      (SwitchOp.read_capnp branches none strings values).branch_count = none ∧
    (SwitchOp.read_capnp branches none strings values).default_branch = none := by
  refine ⟨?_, ?_, rfl⟩
  · have hlt : branches.length - 1 < branches.length := by omega
    simp [SwitchOp.read_capnp, SwitchOp.branch, SwitchOp.branch_count,
      List.getElem?_eq_getElem hlt]
  · simp [SwitchOp.read_capnp, SwitchOp.try_branch, SwitchOp.branch_count,
      List.getElem?_eq_none_iff]

/-- Witness for C5: a switch decoded from one empty branch and no default has
a first branch, no second branch via `try_branch`, and no default branch. -/
theorem c5_switch_no_default_witness :
    ((SwitchOp.read_capnp [RawRegion.mk [] [] [] []] none ⟨[]⟩ ⟨[], ⟨[]⟩⟩).branch
      ((SwitchOp.read_capnp [RawRegion.mk [] [] [] []] none ⟨[]⟩
        ⟨[], ⟨[]⟩⟩).branch_count - 1)).isSome = true ∧
    (SwitchOp.read_capnp [RawRegion.mk [] [] [] []] none ⟨[]⟩
      ⟨[], ⟨[]⟩⟩).try_branch
      (SwitchOp.read_capnp [RawRegion.mk [] [] [] []] none ⟨[]⟩
        ⟨[], ⟨[]⟩⟩).branch_count = none ∧
    (SwitchOp.read_capnp [RawRegion.mk [] [] [] []] none ⟨[]⟩
      ⟨[], ⟨[]⟩⟩).default_branch = none :=
  c5_switch_no_default [RawRegion.mk [] [] [] []] ⟨[]⟩ ⟨[], ⟨[]⟩⟩
    (Nat.le_refl 1)

/-- Counterexample for C9: the claim reads `func_idx` as a `FunctionId`, a
32-bit unsigned index, but no decoded `FuncOp` can hold 65536 (a valid
32-bit function index): the source field is a `u16`. -/
theorem c9_func_idx_counterexample :
    ¬ ∃ (strings : StringTable) (values : ValueTable) (fc : Nat) (op : FuncOp),
      OpType.read_capnp (.func fc) strings values = some (.FuncOp op) ∧
      op.func_idx = 65536 := by
  rintro ⟨strings, values, fc, op, heq, hidx⟩
  simp only [OpType.read_capnp, Option.some.injEq, OpType.FuncOp.injEq] at heq
  have hlt : fc % 2 ^ 16 < 2 ^ 16 := Nat.mod_lt _ (by decide)
  rw [← heq] at hidx
  simp only [FuncOp.mk.injEq] at hidx
  omega

/-- C9 as amended: `func_idx` is a 16-bit unsigned function-table index:
every decoded `FuncOp` has `func_idx` below 2^16, and every index
representable as a 16-bit unsigned integer is representable in a decoded
`FuncOp`. -/
theorem c9_func_idx_u16 :
    (∀ (strings : StringTable) (values : ValueTable) (fc : Nat) (op : FuncOp),
      OpType.read_capnp (.func fc) strings values = some (.FuncOp op) →
      op.func_idx < 2 ^ 16) ∧
    (∀ (strings : StringTable) (values : ValueTable) (v : Nat), v < 2 ^ 16 →
      ∃ op : FuncOp,
        OpType.read_capnp (.func v) strings values = some (.FuncOp op) ∧
        op.func_idx = v) := by
  constructor
  · intro strings values fc op heq
    simp only [OpType.read_capnp, Option.some.injEq, OpType.FuncOp.injEq] at heq
    rw [← heq]
    exact Nat.mod_lt _ (by decide)
  · intro strings values v hv
    exact ⟨⟨v % 2 ^ 16⟩, rfl, Nat.mod_eq_of_lt hv⟩

/-- Witness for C9: index 3 is representable in a decoded `FuncOp`, and the
decoded operation's `func_idx` is below 2^16. -/
theorem c9_func_idx_u16_witness :
    (∃ op : FuncOp,
      OpType.read_capnp (.func 3) ⟨[]⟩ ⟨[], ⟨[]⟩⟩ = some (.FuncOp op) ∧
      op.func_idx = 3) ∧
    FuncOp.func_idx ⟨3⟩ < 2 ^ 16 :=
  ⟨c9_func_idx_u16.2 ⟨[]⟩ ⟨[], ⟨[]⟩⟩ 3 (by decide),
    c9_func_idx_u16.1 ⟨[]⟩ ⟨[], ⟨[]⟩⟩ 3 ⟨3⟩ rfl⟩

end Jeff
